import Mathlib

/-!
Verification of the packaging descriptor `DYMS-Lang/setup.py` of the
Dev-Dami/Docs-website repository.

The descriptor is a single call to setuptools' `setup` with keyword
arguments; the only value that is computed rather than literal is
`packages=find_packages()`, which scans the filesystem below the
directory containing the descriptor. We embed the evaluated call as a
function from an evaluation context (filesystem listing and environment
variables) to a metadata record, together with models of the library
behaviour the descriptor relies on (`find_packages`, the entry-point
specifier syntax, and version specifiers).
-/

namespace Dyms

/-- An evaluation context for the descriptor: the files present below the
directory containing `setup.py` (paths relative to that directory, with
components separated by a slash character) and the process environment
variables. -/
structure EvalCtx where
  files : List String
  env : List (String × String)
deriving DecidableEq

/-- The record of keyword arguments passed to `setup` in
`DYMS-Lang/setup.py`, in source order. -/
structure Metadata where
  name : String
  version : String
  description : String
  author : String
  packages : List String
  install_requires : List String
  entry_points : List (String × List String)
  classifiers : List String
deriving DecidableEq

/-- Splits a list of characters at every occurrence of the separator
character; structural helper used by the parsing models below. -/
def splitOnChar (c : Char) : List Char → List (List Char)
  | [] => [[]]
  | x :: xs =>
    let r := splitOnChar c xs
    if x = c then [] :: r
    else
      match r with
      | [] => [[x]]
      | y :: ys => (x :: y) :: ys

/-- Model of `setuptools.find_packages()` called with no arguments:
every directory below the descriptor's directory that contains an
`__init__.py` file is reported as an importable package, with path
separators turned into dots. A file path is a package marker exactly
when it ends in the twelve characters of the suffix `/__init__.py`; the
package name is the part before that suffix. -/
def find_packages (files : List String) : List String :=
  files.filterMap (fun f =>
    let cs := f.toList
    let n := cs.length
    if 12 ≤ n ∧ cs.drop (n - 12) = ("/__init__.py".toList) then
      some (String.mk ((cs.take (n - 12)).map (fun c => if c = '/' then '.' else c)))
    else none)

/-- The nine classifier tag strings listed in `DYMS-Lang/setup.py`,
lines 17-27, in source order. -/
def sourceClassifiers : List String :=
  [ "Development Status :: 4 - Beta",
    "Environment :: Plugins",
    "Intended Audience :: Developers",
    "License :: OSI Approved :: MIT License",
    "Operating System :: OS Independent",
    "Programming Language :: Python",
    "Programming Language :: Python :: 3",
    "Topic :: Software Development :: Libraries :: Python Modules",
    "Topic :: Text Processing :: Filters" ]

/-- The metadata record produced by evaluating the `setup(...)` call of
`DYMS-Lang/setup.py` in a given context. Every field is the literal
written in the source except `packages`, which is the result of the
`find_packages()` call on the context's filesystem. -/
def descriptor (ctx : EvalCtx) : Metadata :=
  { name := "dyms_lexer",
    version := "0.2.0",
    description := "Pygments lexer for DYMS programming language",
    author := "Dev-Dami",
    packages := find_packages ctx.files,
    install_requires := ["Pygments>=2.0"],
    entry_points := [("pygments.lexers", ["dyms = dyms_lexer:DymsLexer"])],
    classifiers := sourceClassifiers }

/-- Evaluating the whole descriptor file: the import statement binds two
library names and the single `setup(...)` call builds the metadata
record; no statement of the file can raise, so evaluation is a total
function that always returns the record. -/
def evalSetup (ctx : EvalCtx) : Except String Metadata :=
  Except.ok (descriptor ctx)

/-- The names of the keyword arguments passed to `setup` in
`DYMS-Lang/setup.py`, in source order (lines 4-17). -/
def setupFields : List String :=
  [ "name", "version", "description", "author", "packages",
    "install_requires", "entry_points", "classifiers" ]

/-- The field names the spec's data-model sentence enumerates, in the
spec's order: "name, version, author, description, dependency list,
entry-point mapping, classifier tags". Stated from the spec's words for
comparison against `setupFields`, which is taken from the source. -/
def claimedFields : List String :=
  [ "name", "version", "author", "description",
    "install_requires", "entry_points", "classifiers" ]

/-- A parsed entry-point registration: plugin name, module and attribute
within the module. -/
structure EntryPoint where
  name : String
  module : String
  attr : String
deriving DecidableEq

/-- Removes space characters from both ends of a character list. -/
def trimSpaces (l : List Char) : List Char :=
  ((l.dropWhile (fun c => c = ' ')).reverse.dropWhile (fun c => c = ' ')).reverse

/-- Model of the host framework's entry-point specifier syntax
`name = module:attr`: the text before the equals sign is the plugin
name, the text after it is split at the colon into module and
attribute, with surrounding spaces ignored. -/
def parseEntryPoint (s : String) : Option EntryPoint :=
  match splitOnChar '=' s.toList with
  | [lhs, rhs] =>
    match splitOnChar ':' (trimSpaces rhs) with
    | [m, a] =>
      some ⟨String.mk (trimSpaces lhs), String.mk (trimSpaces m), String.mk (trimSpaces a)⟩
    | _ => none
  | _ => none

/-- Interprets a decimal digit string as a natural number. -/
def digitsToNat (l : List Char) : Nat :=
  l.foldl (fun n c => 10 * n + (c.toNat - 48)) 0

/-- Reads a dotted release version such as `2.0` as its list of numeric
components. -/
def parseVersionChars (l : List Char) : List Nat :=
  (splitOnChar '.' l).map digitsToNat

/-- A parsed dependency specifier restricted to the shape used in the
descriptor: a package name followed by the operator `>=` and a release
version. -/
structure Requirement where
  pkg : String
  op : String
  ver : List Nat
deriving DecidableEq

/-- Model of the packaging requirement syntax for the one operator the
descriptor uses: the package name is the longest prefix free of
comparison characters, and a following `>=` introduces the version. -/
def parseRequirement (s : String) : Option Requirement :=
  let cs := s.toList
  let nm := cs.takeWhile (fun c => ¬ (c = '>' ∨ c = '<' ∨ c = '=' ∨ c = '!'))
  match cs.drop nm.length with
  | '>' :: '=' :: v => some ⟨String.mk nm, ">=", parseVersionChars v⟩
  | _ => none

/-- Componentwise ordering of release versions, with missing trailing
components read as zero (so `2` and `2.0` denote the same release). -/
def versionLe : List Nat → List Nat → Bool
  | [], _ => true
  | a :: as, [] => a = 0 && versionLe as []
  | a :: as, b :: bs => a < b || (a = b && versionLe as bs)

/-- A release version satisfies a `>=` requirement exactly when it is at
least the requirement's version. -/
def satisfies (r : Requirement) (v : List Nat) : Bool :=
  r.op = ">=" && versionLe r.ver v

/-- The files of this repository as provided, with paths relative to the
directory containing `setup.py`: the descriptor itself is the only
file. -/
def providedFiles : List String :=
  ["setup.py"]

/-- A module name resolves against a set of files (paths relative to
the import root, which is the descriptor's directory) when the set
contains either a same-named single-file module or a same-named package
directory with an `__init__.py`. -/
def resolvesModule (files : List String) (m : String) : Bool :=
  files.contains (m ++ ".py") || files.contains (m ++ "/__init__.py")

end Dyms

namespace Dyms

/-- C1: the descriptor registers exactly one entry point — under the
group `pygments.lexers`, the identifier `dyms` is mapped to the symbol
`DymsLexer` of module `dyms_lexer` — and no other entry point exists in
any group. -/
theorem single_entry_point_registration :
    (∀ ctx : EvalCtx, (descriptor ctx).entry_points =
      [("pygments.lexers", ["dyms = dyms_lexer:DymsLexer"])]) ∧
    parseEntryPoint "dyms = dyms_lexer:DymsLexer" =
      some ⟨"dyms", "dyms_lexer", "DymsLexer"⟩ :=
  ⟨fun _ => rfl, by decide⟩

/-- C2: the descriptor declares exactly one runtime dependency, the
string `Pygments>=2.0`, and the install_requires list has no other
element. -/
theorem single_runtime_dependency :
    ∀ ctx : EvalCtx, (descriptor ctx).install_requires = ["Pygments>=2.0"] :=
  fun _ => rfl

/-- C3 counterexample: evaluating the descriptor is not independent of
the evaluation context — two contexts that differ in filesystem
contents yield different metadata records, because `find_packages()`
scans the filesystem. -/
theorem descriptor_environment_dependent :
    descriptor ⟨[], []⟩ ≠ descriptor ⟨["dyms_lexer/__init__.py"], []⟩ := by
  decide

/-- C3 amended: evaluating the descriptor is deterministic given the
filesystem contents and independent of environment variables, and every
field other than `packages` has the same value in every context. -/
theorem descriptor_depends_only_on_files :
    (∀ c₁ c₂ : EvalCtx, c₁.files = c₂.files → descriptor c₁ = descriptor c₂) ∧
    (∀ c₁ c₂ : EvalCtx,
      { descriptor c₁ with packages := [] } = { descriptor c₂ with packages := [] }) :=
  ⟨fun c₁ c₂ h => by unfold descriptor; rw [h], fun _ _ => rfl⟩

/-- C3 amended, witness: two contexts with the provided files but
different environment variables produce the same record. -/
theorem descriptor_depends_only_on_files_witness :
    descriptor ⟨["setup.py"], [("HOME", "/a")]⟩ = descriptor ⟨["setup.py"], []⟩ :=
  descriptor_depends_only_on_files.1 ⟨["setup.py"], [("HOME", "/a")]⟩ ⟨["setup.py"], []⟩ rfl

/-- C4 counterexample: the `setup` call passes a field the claim's
enumeration omits — `packages` is among the keyword arguments in the
source but not among the seven fields the claim lists. -/
theorem packages_field_beyond_claimed :
    "packages" ∈ setupFields ∧ "packages" ∉ claimedFields := by
  decide

/-- C4 amended: the package metadata entity consists exactly of the
fields name, version, author, description, packages, dependency list,
entry-point mapping, and classifier tags, and of no other field. -/
theorem setup_field_set :
    setupFields.Perm ("packages" :: claimedFields) := by
  decide

/-- C5: the descriptor's name field equals `dyms_lexer` and its version
field equals `0.2.0`, in every evaluation context. -/
theorem distribution_name_and_version :
    ∀ ctx : EvalCtx, (descriptor ctx).name = "dyms_lexer" ∧
      (descriptor ctx).version = "0.2.0" :=
  fun _ => ⟨rfl, rfl⟩

/-- C6: the module `dyms_lexer` named by the registered entry point is
not provided by any file of the repository, and whenever the entry
point resolves over the provided files extended by further files, the
resolution comes from the added files. -/
theorem lexer_module_absent :
    resolvesModule providedFiles "dyms_lexer" = false ∧
    ∀ ext, resolvesModule (providedFiles ++ ext) "dyms_lexer" = true →
      resolvesModule ext "dyms_lexer" = true := by
  refine ⟨by decide, ?_⟩
  intro ext h
  simpa [resolvesModule, providedFiles] using h

/-- C6 witness: adding a file `dyms_lexer.py` outside the provided
sources makes the entry point resolve, and the theorem traces that
resolution to the added file. -/
theorem lexer_module_absent_witness :
    resolvesModule (providedFiles ++ ["dyms_lexer.py"]) "dyms_lexer" = true ∧
    resolvesModule ["dyms_lexer.py"] "dyms_lexer" = true :=
  ⟨by decide, lexer_module_absent.2 ["dyms_lexer.py"] (by decide)⟩

/-- C7: evaluation of the descriptor has no error branch — for every
evaluation context it returns the metadata record and never a
failure. -/
theorem evaluation_never_fails :
    ∀ ctx : EvalCtx, evalSetup ctx = Except.ok (descriptor ctx) :=
  fun _ => rfl

/-- C8: the declared dependency constraint `Pygments>=2.0` parses as a
requirement on package `Pygments` and is satisfiable — some release
version meets it. -/
theorem dependency_constraint_satisfiable :
    ∀ ctx : EvalCtx, (descriptor ctx).install_requires = ["Pygments>=2.0"] ∧
      ∃ r v, parseRequirement "Pygments>=2.0" = some r ∧
        r.pkg = "Pygments" ∧ satisfies r v = true :=
  fun _ => ⟨rfl, ⟨"Pygments", ">=", [2, 0]⟩, [2, 19], by decide, rfl, by decide⟩

/-- C9: over the provided source tree, which holds no directory with an
`__init__.py`, `find_packages()` returns the empty list, so the
descriptor's packages field is empty. -/
theorem provided_tree_packages_empty :
    find_packages providedFiles = [] ∧
    (descriptor ⟨providedFiles, []⟩).packages = [] := by
  decide

/-- C10: the classifiers field is the fixed list of exactly nine tag
strings of the source, including the Beta development status, the MIT
license, Python 3 support and OS independence, in every evaluation
context. -/
theorem classifier_tags_fixed :
    ∀ ctx : EvalCtx, (descriptor ctx).classifiers = sourceClassifiers ∧
      sourceClassifiers.length = 9 ∧
      "Development Status :: 4 - Beta" ∈ sourceClassifiers ∧
      "License :: OSI Approved :: MIT License" ∈ sourceClassifiers ∧
      "Operating System :: OS Independent" ∈ sourceClassifiers ∧
      "Programming Language :: Python :: 3" ∈ sourceClassifiers :=
  fun _ => ⟨rfl, by decide⟩

end Dyms
